import Mathlib

/-!
Verification of the voice-notes MCP server (src/voice_notes_mcp/server.py,
src/voice_notes_mcp/mcp_server.py) against its natural-language
specification.  The Python tool handlers are shallowly embedded as pure
Lean functions: the Supabase store is a record of rows, queries are
filter/sort/slice over lists, the TTLCache is an association list of
entries with insertion times, and gateway (network) failures are an
explicit `Option String` parameter that sends the handler into its
exception branch.  Machine timestamps are abstract naturals.
-/

namespace VoiceNotes

/-- A row of the notes table, with the columns the server touches. -/
structure Note where
  id : String
  transcript : String
  created_at : Nat
  modified_at : Nat
  word_count : Nat
  audio_duration_seconds : Option Nat
  is_processed : Bool
  transcription_status : String
  project_id : Option String
deriving DecidableEq, Repr

/-- A row of the projects table. -/
structure Project where
  id : String
  name : String
  purpose : Option String
  goal : Option String
  is_archived : Bool
  created_at : Nat
  updated_at : Nat
deriving DecidableEq, Repr

/-- The external tabular store reached through the gateway.  `nextId`
models the store-side generation of fresh project identifiers. -/
structure Store where
  notes : List Note
  projects : List Project
  nextId : Nat
deriving DecidableEq, Repr

/-- Projection selected by list_unprocessed_notes:
id, transcript, created_at, word_count, audio_duration_seconds. -/
structure NoteListItem where
  id : String
  transcript : String
  created_at : Nat
  word_count : Nat
  audio_duration_seconds : Option Nat
deriving DecidableEq, Repr

/-- Result shape of list_unprocessed_notes. -/
structure ListNotesOk where
  notes : List NoteListItem
  count : Nat
  has_more : Bool
deriving DecidableEq, Repr

/-- Result of read_note: the full row plus the flattened project name
when a project is assigned (project_id is already a row column). -/
structure NoteDetail where
  note : Note
  project_name : Option String
deriving DecidableEq, Repr

/-- Projection selected by search_notes. -/
structure SearchItem where
  id : String
  transcript : String
  created_at : Nat
  word_count : Nat
  is_processed : Bool
deriving DecidableEq, Repr

/-- Result shape of search_notes. -/
structure SearchOk where
  notes : List SearchItem
  count : Nat
  query : String
deriving DecidableEq, Repr

/-- Result shape of get_inbox_stats. -/
structure StatsOk where
  unprocessed_count : Nat
  total_count : Nat
  recent_count : Nat
  processed_count : Nat
  last_updated : Nat
deriving DecidableEq, Repr

/-- One element of the list_projects result: project columns plus the
derived note_count. -/
structure ProjectListItem where
  project : Project
  note_count : Nat
deriving DecidableEq, Repr

/-- Result shape of list_projects. -/
structure ListProjectsOk where
  projects : List ProjectListItem
  count : Nat
deriving DecidableEq, Repr

/-- Result of get_project: the project row plus note_count. -/
structure ProjectDetail where
  project : Project
  note_count : Nat
deriving DecidableEq, Repr

/-- Projection selected by get_notes_by_project. -/
structure ProjNoteItem where
  id : String
  transcript : String
  created_at : Nat
  modified_at : Nat
  word_count : Nat
  audio_duration_seconds : Option Nat
  is_processed : Bool
deriving DecidableEq, Repr

/-- Result shape of get_notes_by_project. -/
structure ProjectNotesOk where
  notes : List ProjNoteItem
  count : Nat
  has_more : Bool
  project_id : String
deriving DecidableEq, Repr

/-- Values a read tool may compute and place in the cache. -/
inductive CacheVal where
  | unprocessed (r : ListNotesOk)
  | note (r : NoteDetail)
  | search (r : SearchOk)
  | stats (r : StatsOk)
  | projects (r : ListProjectsOk)
  | projectDetail (r : ProjectDetail)
  | projectNotes (r : ProjectNotesOk)
deriving DecidableEq, Repr

/-- Success payloads of the mutating tools. -/
inductive SuccessVal where
  | marked (note_id : String)
  | bulkMarked (note_ids : List String) (processed_count : Nat)
  | assigned (note_id : String) (project_id : String)
  | created (project : Project)
  | updated (project : Project)
deriving DecidableEq, Repr

/-- A tool result: a cachable read result, a mutation success, or the
error dictionary produced by a handler's exception / failure branch. -/
inductive ToolResult where
  | ok (v : CacheVal)
  | success (v : SuccessVal)
  | err (msg : String)
deriving DecidableEq, Repr

/-- Whether a result is the error dictionary. -/
def ToolResult.isErr : ToolResult → Bool
  | .err _ => true
  | _ => false

/-- One entry of the TTL cache: key, stored result, insertion time. -/
structure CacheEntry where
  key : String
  val : ToolResult
  time : Nat
deriving DecidableEq, Repr

/-- The TTLCache contents (newest entries first). -/
abbrev Cache := List CacheEntry

/-- TTLCache(maxsize=100, ttl=60). -/
def cacheTTL : Nat := 60

/-- TTLCache(maxsize=100, ttl=60). -/
def cacheMaxsize : Nat := 100

/-- Python str.startswith on the character sequences. -/
def strStartsWith (s pre : String) : Bool := pre.data.isPrefixOf s.data

/-- Lookup in the TTL cache: an entry older than the TTL is treated as
absent. -/
def cacheGet (c : Cache) (t : Nat) (k : String) : Option ToolResult :=
  match c.find? (fun e => e.key == k) with
  | some e => if t < e.time + cacheTTL then some e.val else none
  | none => none

/-- Drop entries whose TTL has elapsed at time t. -/
def expireEntries (c : Cache) (t : Nat) : Cache :=
  c.filter (fun e => decide (t < e.time + cacheTTL))

/-- Earliest insertion time present in the cache (d when empty). -/
def minInsertTime (c : Cache) (d : Nat) : Nat :=
  c.foldr (fun e m => min e.time m) d

/-- Evict the entry that expires soonest (TTLCache popitem order). -/
def popSoonest (c : Cache) : Cache :=
  match c with
  | [] => []
  | e0 :: _ => c.eraseP (fun e => e.time == minInsertTime c e0.time)

/-- TTLCache item assignment: expire old entries, replace any entry for
the same key, evict on overflow, insert the new entry. -/
def cacheSet (c : Cache) (t : Nat) (k : String) (v : ToolResult) : Cache :=
  let c1 := (expireEntries c t).filter (fun e => e.key != k)
  let c2 := if cacheMaxsize ≤ c1.length then popSoonest c1 else c1
  ⟨k, v, t⟩ :: c2

/-- Remove every cache entry whose key satisfies the predicate. -/
def cacheInvalidate (c : Cache) (p : String → Bool) : Cache :=
  c.filter (fun e => !(p e.key))

/-- Cache key of list_unprocessed_notes. -/
def unprocKey (limit offset : Nat) : String :=
  "unprocessed_" ++ toString limit ++ "_" ++ toString offset

/-- Cache key of read_note. -/
def noteKey (note_id : String) : String := "note_" ++ note_id

/-- Python str() of a boolean, as used in f-string cache keys. -/
def pyBool (b : Bool) : String := if b then "True" else "False"

/-- Cache key of search_notes. -/
def searchKey (q : String) (include_processed : Bool) (limit : Nat) : String :=
  "search_" ++ q ++ "_" ++ pyBool include_processed ++ "_" ++ toString limit

/-- Cache key of get_inbox_stats. -/
def statsKey : String := "inbox_stats"

/-- Cache key of list_projects. -/
def projectsKey (include_archived : Bool) : String :=
  "projects_" ++ pyBool include_archived

/-- Cache key of get_project. -/
def projectKey (project_id : String) : String := "project_" ++ project_id

/-- Cache key of get_notes_by_project. -/
def projectNotesKey (project_id : String) (limit offset : Nat) : String :=
  "project_notes_" ++ project_id ++ "_" ++ toString limit ++ "_" ++ toString offset

/-- Keys removed by _invalidate_note_cache(note_id). -/
def noteInvPred (note_id : String) (k : String) : Bool :=
  strStartsWith k "unprocessed_" || k == noteKey note_id || k == statsKey

/-- _invalidate_note_cache. -/
def invalidateNoteCache (note_id : String) (c : Cache) : Cache :=
  cacheInvalidate c (noteInvPred note_id)

/-- Keys removed by _invalidate_projects_cache. -/
def projectsInvPred (k : String) : Bool :=
  strStartsWith k "projects_" || strStartsWith k "project_notes_"

/-- _invalidate_projects_cache. -/
def invalidateProjectsCache (c : Cache) : Cache :=
  cacheInvalidate c projectsInvPred

/-- Keys removed by _invalidate_project_cache(project_id). -/
def projectInvPred (project_id : String) (k : String) : Bool :=
  k == projectKey project_id || strStartsWith k ("project_notes_" ++ project_id)

/-- _invalidate_project_cache. -/
def invalidateProjectCache (project_id : String) (c : Cache) : Cache :=
  cacheInvalidate c (projectInvPred project_id)

/-- Ordering used by order("created_at", desc=True). -/
def newerNote (a b : Note) : Prop := b.created_at ≤ a.created_at

instance : DecidableRel newerNote := fun a b => Nat.decLe b.created_at a.created_at

instance : IsTotal Note newerNote := ⟨fun a b => Nat.le_total b.created_at a.created_at⟩

instance : IsTrans Note newerNote := ⟨fun _ _ _ hab hbc => Nat.le_trans hbc hab⟩

/-- Sort notes newest-first by created_at. -/
def sortNotesDesc (l : List Note) : List Note := l.insertionSort newerNote

/-- Ordering used by order("updated_at", desc=True). -/
def newerProject (a b : Project) : Prop := b.updated_at ≤ a.updated_at

instance : DecidableRel newerProject := fun a b => Nat.decLe b.updated_at a.updated_at

instance : IsTotal Project newerProject := ⟨fun a b => Nat.le_total b.updated_at a.updated_at⟩

instance : IsTrans Project newerProject := ⟨fun _ _ _ hab hbc => Nat.le_trans hbc hab⟩

/-- Sort projects newest-first by updated_at. -/
def sortProjectsDesc (l : List Project) : List Project := l.insertionSort newerProject

/-- The inbox filter of list_unprocessed_notes: project_id is null,
is_processed false, transcription_status completed. -/
def inboxFilter (n : Note) : Bool :=
  n.project_id == none && n.is_processed == false && n.transcription_status == "completed"

/-- Rows produced by the list_unprocessed_notes gateway query: filter,
order newest-first, then range(offset, offset + limit - 1). -/
def unprocessedRows (s : Store) (limit offset : Nat) : List Note :=
  ((sortNotesDesc (s.notes.filter inboxFilter)).drop offset).take limit

/-- Column projection of list_unprocessed_notes. -/
def toListItem (n : Note) : NoteListItem :=
  ⟨n.id, n.transcript, n.created_at, n.word_count, n.audio_duration_seconds⟩

/-- Column projection of search_notes. -/
def toSearchItem (n : Note) : SearchItem :=
  ⟨n.id, n.transcript, n.created_at, n.word_count, n.is_processed⟩

/-- Column projection of get_notes_by_project. -/
def toProjNoteItem (n : Note) : ProjNoteItem :=
  ⟨n.id, n.transcript, n.created_at, n.modified_at, n.word_count,
    n.audio_duration_seconds, n.is_processed⟩

/-- Substring test on character lists, modelling the store's text match
for search_notes. -/
def charsInfixOf (needle hay : List Char) : Bool :=
  match hay with
  | [] => needle.isEmpty
  | _ :: tl => needle.isPrefixOf hay || charsInfixOf needle tl

/-- The transcript text-search match delegated to the store. -/
def searchMatch (transcript q : String) : Bool := charsInfixOf q.data transcript.data

/-- Derived note count of a project: notes whose project reference
equals the project id. -/
def projectNoteCount (s : Store) (project_id : String) : Nat :=
  (s.notes.filter (fun n => n.project_id == some project_id)).length

/-- The in-memory server: the TTL cache plus the external store it
reads and writes through the gateway. -/
structure ServerState where
  cache : Cache
  store : Store
deriving DecidableEq, Repr

/-- Outcome of one tool handler invocation: the returned result, the
server state afterwards, and how many gateway requests were issued. -/
structure Step where
  result : ToolResult
  state : ServerState
  gatewayCalls : Nat
deriving DecidableEq, Repr

/-- The result dictionary computed by list_unprocessed_notes on a cache
miss with a healthy gateway. -/
def listUnprocOk (s : Store) (limit offset : Nat) : ListNotesOk :=
  let items := (unprocessedRows s limit offset).map toListItem
  ⟨items, items.length, items.length == limit⟩

/-- The same result as a cachable ToolResult. -/
def listUnprocResult (s : Store) (limit offset : Nat) : ToolResult :=
  .ok (.unprocessed (listUnprocOk s limit offset))

/-- list_unprocessed_notes(limit, offset): serve from cache when the key
is live, otherwise query the store, cache the result and return it; a
gateway failure (gw = some e) lands in the except branch uncached. -/
def list_unprocessed_notes (limit offset : Nat) (t : Nat) (gw : Option String)
    (st : ServerState) : Step :=
  let key := unprocKey limit offset
  match cacheGet st.cache t key with
  | some r => ⟨r, st, 0⟩
  | none =>
    match gw with
    | some e => ⟨.err e, st, 1⟩
    | none =>
      let result := listUnprocResult st.store limit offset
      ⟨result, ⟨cacheSet st.cache t key result, st.store⟩, 1⟩

/-- The result computed by read_note for a found row: the full note
plus the flattened project name when a project is assigned. -/
def readNoteResult (s : Store) (n : Note) : ToolResult :=
  let pname := match n.project_id with
    | some pid => (s.projects.find? (fun p => p.id == pid)).map Project.name
    | none => none
  .ok (.note ⟨n, pname⟩)

/-- read_note(note_id): cached single-note lookup; zero rows yields the
not-found business error without caching. -/
def read_note (note_id : String) (t : Nat) (gw : Option String)
    (st : ServerState) : Step :=
  let key := noteKey note_id
  match cacheGet st.cache t key with
  | some r => ⟨r, st, 0⟩
  | none =>
    match gw with
    | some e => ⟨.err e, st, 1⟩
    | none =>
      match st.store.notes.find? (fun n => n.id == note_id) with
      | some n =>
        let result := readNoteResult st.store n
        ⟨result, ⟨cacheSet st.cache t key result, st.store⟩, 1⟩
      | none => ⟨.err ("Note " ++ note_id ++ " not found"), st, 1⟩

/-- The row update performed by mark_as_processed. -/
def markUpdate (note_id : String) (t : Nat) (n : Note) : Note :=
  if n.id == note_id then
    { n with
      is_processed := true
      modified_at := t }
  else n

/-- mark_as_processed(note_id): update matching rows, and on success
invalidate the note-related cache entries. -/
def mark_as_processed (note_id : String) (t : Nat) (gw : Option String)
    (st : ServerState) : Step :=
  match gw with
  | some e => ⟨.err e, st, 1⟩
  | none =>
    if (st.store.notes.filter (fun n => n.id == note_id)).isEmpty then
      ⟨.err ("Failed to mark note " ++ note_id ++ " as processed"), st, 1⟩
    else
      ⟨.success (.marked note_id),
        ⟨invalidateNoteCache note_id st.cache,
          { st.store with notes := st.store.notes.map (markUpdate note_id t) }⟩, 1⟩

/-- bulk_mark_processed(note_ids): one update over the id list; reports
the count of rows actually affected and always succeeds. -/
def bulk_mark_processed (note_ids : List String) (t : Nat) (gw : Option String)
    (st : ServerState) : Step :=
  match gw with
  | some e => ⟨.err e, st, 1⟩
  | none =>
    let affected := (st.store.notes.filter (fun n => note_ids.contains n.id)).length
    let notes2 := st.store.notes.map
      (fun n => if note_ids.contains n.id then
        { n with
          is_processed := true
          modified_at := t }
        else n)
    ⟨.success (.bulkMarked note_ids affected),
      ⟨note_ids.foldl (fun c nid => invalidateNoteCache nid c) st.cache,
        { st.store with notes := notes2 }⟩, 1⟩

/-- The result computed by search_notes on a cache miss with a healthy
gateway. -/
def searchResult (s : Store) (q : String) (include_processed : Bool) (limit : Nat) : ToolResult :=
  let rows := s.notes.filter
    (fun n => searchMatch n.transcript q && (include_processed || n.is_processed == false))
  let items := ((sortNotesDesc rows).take limit).map toSearchItem
  .ok (.search ⟨items, items.length, q⟩)

/-- search_notes(query, include_processed, limit): cached text search,
optionally filtered to unprocessed notes, newest-first, limited. -/
def search_notes (q : String) (include_processed : Bool) (limit : Nat) (t : Nat)
    (gw : Option String) (st : ServerState) : Step :=
  let key := searchKey q include_processed limit
  match cacheGet st.cache t key with
  | some r => ⟨r, st, 0⟩
  | none =>
    match gw with
    | some e => ⟨.err e, st, 1⟩
    | none =>
      let result := searchResult st.store q include_processed limit
      ⟨result, ⟨cacheSet st.cache t key result, st.store⟩, 1⟩

/-- Timestamp of seven days before t, as used by the recent-count query. -/
def sevenDaysAgo (t : Nat) : Nat := t - 7 * 86400

/-- The stats dictionary computed by get_inbox_stats at time t. -/
def statsResult (s : Store) (t : Nat) : ToolResult :=
  let unproc := (s.notes.filter
    (fun n => n.is_processed == false && n.transcription_status == "completed")).length
  let total := s.notes.length
  let recent := (s.notes.filter (fun n => sevenDaysAgo t ≤ n.created_at)).length
  .ok (.stats ⟨unproc, total, recent, total - unproc, t⟩)

/-- get_inbox_stats: three cached counts (unprocessed, total, recent)
plus the derived processed count. -/
def get_inbox_stats (t : Nat) (gw : Option String) (st : ServerState) : Step :=
  match cacheGet st.cache t statsKey with
  | some r => ⟨r, st, 0⟩
  | none =>
    match gw with
    | some e => ⟨.err e, st, 1⟩
    | none =>
      let result := statsResult st.store t
      ⟨result, ⟨cacheSet st.cache t statsKey result, st.store⟩, 3⟩

/-- The project rows returned by the list_projects gateway query. -/
def listProjectRows (s : Store) (include_archived : Bool) : List Project :=
  let rows := if include_archived then s.projects
    else s.projects.filter (fun p => p.is_archived == false)
  sortProjectsDesc rows

/-- The result computed by list_projects on a cache miss with a healthy
gateway. -/
def listProjectsResult (s : Store) (include_archived : Bool) : ToolResult :=
  let items := (listProjectRows s include_archived).map
    (fun p => ProjectListItem.mk p (projectNoteCount s p.id))
  .ok (.projects ⟨items, items.length⟩)

/-- list_projects(include_archived): cached listing, archived rows kept
only on request, newest-first by updated_at, each row annotated with a
freshly counted note_count (one extra gateway request per project). -/
def list_projects (include_archived : Bool) (t : Nat) (gw : Option String)
    (st : ServerState) : Step :=
  let key := projectsKey include_archived
  match cacheGet st.cache t key with
  | some r => ⟨r, st, 0⟩
  | none =>
    match gw with
    | some e => ⟨.err e, st, 1⟩
    | none =>
      let result := listProjectsResult st.store include_archived
      ⟨result, ⟨cacheSet st.cache t key result, st.store⟩,
        1 + (listProjectRows st.store include_archived).length⟩

/-- The result computed by get_project for a found row. -/
def getProjectResult (s : Store) (project_id : String) (p : Project) : ToolResult :=
  .ok (.projectDetail ⟨p, projectNoteCount s project_id⟩)

/-- get_project(project_id): cached single-project lookup with derived
note_count; zero rows yields the not-found business error uncached. -/
def get_project (project_id : String) (t : Nat) (gw : Option String)
    (st : ServerState) : Step :=
  let key := projectKey project_id
  match cacheGet st.cache t key with
  | some r => ⟨r, st, 0⟩
  | none =>
    match gw with
    | some e => ⟨.err e, st, 1⟩
    | none =>
      match st.store.projects.find? (fun p => p.id == project_id) with
      | some p =>
        let result := getProjectResult st.store project_id p
        ⟨result, ⟨cacheSet st.cache t key result, st.store⟩, 2⟩
      | none => ⟨.err ("Project " ++ project_id ++ " not found"), st, 1⟩

/-- create_project(name, purpose, goal): insert with is_archived false
(no validation of the name), then invalidate the project listings. -/
def create_project (name : String) (purpose goal : Option String) (t : Nat)
    (gw : Option String) (st : ServerState) : Step :=
  match gw with
  | some e => ⟨.err e, st, 1⟩
  | none =>
    let proj : Project :=
      ⟨"proj-" ++ toString st.store.nextId, name, purpose, goal, false, t, t⟩
    ⟨.success (.created proj),
      ⟨invalidateProjectsCache st.cache,
        { st.store with
          projects := st.store.projects ++ [proj]
          nextId := st.store.nextId + 1 }⟩, 1⟩

/-- The partial row update performed by update_project. -/
def projUpdate (name purpose goal : Option String) (is_archived : Option Bool)
    (t : Nat) (p : Project) : Project :=
  { p with
    name := name.getD p.name
    purpose := match purpose with | some x => some x | none => p.purpose
    goal := match goal with | some x => some x | none => p.goal
    is_archived := is_archived.getD p.is_archived
    updated_at := t }

/-- update_project(project_id, fields): partial update refreshing
updated_at; rejects an empty field set before any gateway call. -/
def update_project (project_id : String) (name purpose goal : Option String)
    (is_archived : Option Bool) (t : Nat) (gw : Option String)
    (st : ServerState) : Step :=
  if name.isNone && purpose.isNone && goal.isNone && is_archived.isNone then
    ⟨.err "No fields to update", st, 0⟩
  else
    match gw with
    | some e => ⟨.err e, st, 1⟩
    | none =>
      match (st.store.projects.map (fun p =>
          if p.id == project_id then projUpdate name purpose goal is_archived t p else p)
          ).find? (fun p => p.id == project_id) with
      | some p2 =>
        ⟨.success (.updated p2),
          ⟨invalidateProjectCache project_id (invalidateProjectsCache st.cache),
            { st.store with projects := st.store.projects.map (fun p =>
              if p.id == project_id then projUpdate name purpose goal is_archived t p else p) }⟩, 1⟩
      | none => ⟨.err ("Failed to update project " ++ project_id), st, 1⟩

/-- The result computed by get_notes_by_project on a cache miss with a
healthy gateway. -/
def projectNotesResult (s : Store) (project_id : String) (limit offset : Nat) : ToolResult :=
  let rows := s.notes.filter
    (fun n => n.project_id == some project_id && n.transcription_status == "completed")
  let items := (((sortNotesDesc rows).drop offset).take limit).map toProjNoteItem
  .ok (.projectNotes ⟨items, items.length, items.length == limit, project_id⟩)

/-- get_notes_by_project(project_id, limit, offset): cached paginated
listing of a project's completed notes, newest-first. -/
def get_notes_by_project (project_id : String) (limit offset : Nat) (t : Nat)
    (gw : Option String) (st : ServerState) : Step :=
  let key := projectNotesKey project_id limit offset
  match cacheGet st.cache t key with
  | some r => ⟨r, st, 0⟩
  | none =>
    match gw with
    | some e => ⟨.err e, st, 1⟩
    | none =>
      let result := projectNotesResult st.store project_id limit offset
      ⟨result, ⟨cacheSet st.cache t key result, st.store⟩, 1⟩

/-- The row update performed by assign_note_to_project. -/
def assignUpdate (note_id project_id : String) (t : Nat) (n : Note) : Note :=
  if n.id == note_id then
    { n with
      project_id := some project_id
      is_processed := true
      modified_at := t }
  else n

/-- assign_note_to_project(note_id, project_id): set the project
reference and the processed flag; on success invalidate the note cache
entries and then the project-listing cache entries. -/
def assign_note_to_project (note_id project_id : String) (t : Nat)
    (gw : Option String) (st : ServerState) : Step :=
  match gw with
  | some e => ⟨.err e, st, 1⟩
  | none =>
    if (st.store.notes.filter (fun n => n.id == note_id)).isEmpty then
      ⟨.err ("Failed to assign note " ++ note_id ++ " to project"), st, 1⟩
    else
      ⟨.success (.assigned note_id project_id),
        ⟨invalidateProjectsCache (invalidateNoteCache note_id st.cache),
          { st.store with notes := st.store.notes.map (assignUpdate note_id project_id t) }⟩, 1⟩

/-- The loosely-typed argument dictionary of a tools/call request; a
missing key is `none`. -/
structure Args where
  limit : Option Nat
  offset : Option Nat
  note_id : Option String
  note_ids : Option (List String)
  project_id : Option String
  query : Option String
  include_processed : Option Bool
  include_archived : Option Bool
  name : Option String
  purpose : Option String
  goal : Option String
  is_archived : Option Bool
deriving DecidableEq, Repr

/-- An empty argument dictionary. -/
def Args.empty : Args :=
  ⟨none, none, none, none, none, none, none, none, none, none, none, none⟩

/-- The tool names dispatched by handle_call_tool in server.py. -/
def serverToolNames : List String :=
  ["list_unprocessed_notes", "read_note", "mark_as_processed", "bulk_mark_processed",
   "search_notes", "get_inbox_stats", "list_projects", "get_project", "create_project",
   "update_project", "get_notes_by_project", "assign_note_to_project"]

/-- The error dictionary produced when handle_call_tool catches an
exception: accessing a missing required argument raises KeyError, whose
str() is the quoted key name. -/
def keyErrorResult (k : String) : ToolResult :=
  .err ("Tool execution failed: " ++ "'" ++ k ++ "'")

/-- handle_call_tool(name, arguments) of server.py: dispatch on the tool
name, defaulting optional arguments; an unknown name raises ValueError,
caught and rendered as the Unknown tool error with no gateway call. -/
def handle_call_tool (nm : String) (a : Args) (t : Nat) (gw : Option String)
    (st : ServerState) : Step :=
  if nm == "list_unprocessed_notes" then
    list_unprocessed_notes (a.limit.getD 50) (a.offset.getD 0) t gw st
  else if nm == "read_note" then
    match a.note_id with
    | some nid => read_note nid t gw st
    | none => ⟨keyErrorResult "note_id", st, 0⟩
  else if nm == "mark_as_processed" then
    match a.note_id with
    | some nid => mark_as_processed nid t gw st
    | none => ⟨keyErrorResult "note_id", st, 0⟩
  else if nm == "bulk_mark_processed" then
    match a.note_ids with
    | some nids => bulk_mark_processed nids t gw st
    | none => ⟨keyErrorResult "note_ids", st, 0⟩
  else if nm == "search_notes" then
    match a.query with
    | some q => search_notes q (a.include_processed.getD false) (a.limit.getD 20) t gw st
    | none => ⟨keyErrorResult "query", st, 0⟩
  else if nm == "get_inbox_stats" then
    get_inbox_stats t gw st
  else if nm == "list_projects" then
    list_projects (a.include_archived.getD false) t gw st
  else if nm == "get_project" then
    match a.project_id with
    | some pid => get_project pid t gw st
    | none => ⟨keyErrorResult "project_id", st, 0⟩
  else if nm == "create_project" then
    match a.name with
    | some n => create_project n a.purpose a.goal t gw st
    | none => ⟨keyErrorResult "name", st, 0⟩
  else if nm == "update_project" then
    match a.project_id with
    | some pid => update_project pid a.name a.purpose a.goal a.is_archived t gw st
    | none => ⟨keyErrorResult "project_id", st, 0⟩
  else if nm == "get_notes_by_project" then
    match a.project_id with
    | some pid => get_notes_by_project pid (a.limit.getD 50) (a.offset.getD 0) t gw st
    | none => ⟨keyErrorResult "project_id", st, 0⟩
  else if nm == "assign_note_to_project" then
    match a.note_id, a.project_id with
    | some nid, some pid => assign_note_to_project nid pid t gw st
    | none, _ => ⟨keyErrorResult "note_id", st, 0⟩
    | some _, none => ⟨keyErrorResult "project_id", st, 0⟩
  else
    ⟨.err ("Tool execution failed: Unknown tool: " ++ nm), st, 0⟩

end VoiceNotes

namespace Mcp

/-- The protocol session state of mcp_server.py: the initialized flag
set by the initialize message. -/
structure Session where
  ready : Bool
deriving DecidableEq, Repr

/-- Result payloads of successful MCP responses. -/
inductive McpResult where
  | initOk
  | toolsList (names : List String)
  | toolText (text : String)
deriving DecidableEq, Repr

/-- A line written back by handle_message: a result or an error
envelope, both correlated to the request id. -/
inductive McpResponse where
  | result (id : Option Nat) (r : McpResult)
  | rpcError (id : Option Nat) (code : Int) (message : String)
deriving DecidableEq, Repr

/-- An inbound request envelope; `toolName` is params["name"] of a
tools/call request. -/
structure McpMessage where
  method : String
  id : Option Nat
  toolName : Option String
deriving DecidableEq, Repr

/-- The tool catalog returned by handle_tools_list in mcp_server.py. -/
def mcpToolNames : List String :=
  ["list_unprocessed_notes", "read_note", "mark_as_processed", "search_notes",
   "get_inbox_stats", "list_projects", "get_project_notes", "search_project_notes",
   "search_all_projects"]

/-- handle_message of mcp_server.py: route by method; tools/list and
tools/call raise when the session is not initialized, and the outer
try/except turns any exception into an internal-error response
correlated to the request id.  Tool execution itself is abstracted by
the `exec` oracle; the returned Nat counts tool invocations. -/
def handleMessage (exec : String → String) (sess : Session) (m : McpMessage) :
    Session × Option McpResponse × Nat :=
  if m.method == "initialize" then
    (⟨true⟩, some (.result m.id .initOk), 0)
  else if m.method == "notifications/initialized" then
    (sess, none, 0)
  else if m.method == "tools/list" then
    if sess.ready then
      (sess, some (.result m.id (.toolsList mcpToolNames)), 0)
    else
      (sess, some (.rpcError m.id (-32603) "Internal error: Server not initialized"), 0)
  else if m.method == "tools/call" then
    if sess.ready then
      match m.toolName with
      | some nm =>
        if mcpToolNames.contains nm then
          (sess, some (.result m.id (.toolText (exec nm))), 1)
        else
          (sess, some (.rpcError m.id (-32603) ("Internal error: Unknown tool: " ++ nm)), 0)
      | none =>
        (sess, some (.rpcError m.id (-32603) "Internal error: Unknown tool: None"), 0)
    else
      (sess, some (.rpcError m.id (-32603) "Internal error: Server not initialized"), 0)
  else
    (sess, some (.rpcError m.id (-32601) ("Method not found: " ++ m.method)), 0)

end Mcp

namespace VoiceNotes

/-- The substring relation on strings, for stating that an error
message mentions a marker or an identifier. -/
def strContains (s sub : String) : Prop := ∃ a b : String, s = a ++ sub ++ b

/-- A sample inbox note. -/
def sampleNote : Note := ⟨"note-1", "hello world", 10, 10, 2, some 5, false, "completed", none⟩

/-- A second, newer sample inbox note. -/
def sampleNote2 : Note := ⟨"note-2", "second note", 20, 20, 2, none, false, "completed", none⟩

/-- A sample project. -/
def sampleProject : Project := ⟨"proj-1", "Test Project", none, none, false, 5, 5⟩

/-- A sample store with one inbox note and one project. -/
def sampleStore : Store := ⟨[sampleNote], [sampleProject], 0⟩

/-- A server state with an empty cache and an empty store. -/
def emptyState : ServerState := ⟨[], ⟨[], [], 0⟩⟩

/-- A server state with an empty cache over the sample store. -/
def sampleState : ServerState := ⟨[], sampleStore⟩

/-- A store with two inbox notes inserted oldest-first. -/
def sampleStore2 : Store := ⟨[sampleNote, sampleNote2], [sampleProject], 0⟩

/-- A server state with an empty cache over the two-note store. -/
def sampleState2 : ServerState := ⟨[], sampleStore2⟩

/-- A server state whose cache holds a single-project entry for the
sample project, over the sample store. -/
def c1State : ServerState :=
  ⟨[⟨projectKey "proj-1", .ok (.projectDetail ⟨sampleProject, 0⟩), 0⟩], sampleStore⟩

theorem strAppendAssoc (a b c : String) : a ++ b ++ c = a ++ (b ++ c) := by
  rcases a with ⟨A⟩
  rcases b with ⟨B⟩
  rcases c with ⟨C⟩
  show String.mk ((A ++ B) ++ C) = String.mk (A ++ (B ++ C))
  rw [List.append_assoc]

theorem strAppendEmpty (s : String) : s ++ "" = s := by
  rcases s with ⟨A⟩
  show String.mk (A ++ []) = String.mk A
  rw [List.append_nil]

theorem strContains_middle (a s b : String) : strContains (a ++ s ++ b) s := ⟨a, b, rfl⟩

theorem cacheGet_cacheSet_same (c : Cache) (t t2 : Nat) (k : String) (v : ToolResult)
    (h : t2 < t + cacheTTL) :
    cacheGet (cacheSet c t k v) t2 k = some v := by
  simp [cacheGet, cacheSet, List.find?_cons, h]

theorem mem_popSoonest {c : Cache} {e : CacheEntry} (h : e ∈ popSoonest c) : e ∈ c := by
  cases c with
  | nil => simp [popSoonest] at h
  | cons e0 tl => exact (List.eraseP_sublist _).subset (by simpa [popSoonest] using h)

theorem mem_cacheSet {c : Cache} {t : Nat} {k : String} {v : ToolResult} {e : CacheEntry}
    (he : e ∈ cacheSet c t k v) : e = ⟨k, v, t⟩ ∨ e ∈ c := by
  simp only [cacheSet, List.mem_cons] at he
  rcases he with rfl | he
  · exact Or.inl rfl
  · right
    split at he
    · exact (List.filter_sublist _).subset ((List.filter_sublist _).subset (mem_popSoonest he))
    · exact (List.filter_sublist _).subset ((List.filter_sublist _).subset he)

theorem mem_cacheInvalidate {c : Cache} {p : String → Bool} {e : CacheEntry} :
    e ∈ cacheInvalidate c p ↔ e ∈ c ∧ p e.key = false := by
  simp [cacheInvalidate, List.mem_filter]

theorem cacheGet_cacheInvalidate_none {c : Cache} {p : String → Bool} {k : String} (t : Nat)
    (hp : p k = true) : cacheGet (cacheInvalidate c p) t k = none := by
  have hf : (cacheInvalidate c p).find? (fun e => e.key == k) = none := by
    refine List.find?_eq_none.mpr (fun e he => ?_)
    rcases mem_cacheInvalidate.mp he with ⟨_, hpk⟩
    simp only [beq_iff_eq]
    intro hk
    rw [hk, hp] at hpk
    exact Bool.noConfusion hpk
  simp [cacheGet, hf]

theorem filter_self_idem {α : Type} (p : α → Bool) (l : List α) :
    (l.filter p).filter p = l.filter p := by
  induction l with
  | nil => rfl
  | cons a tl ih =>
    by_cases h : p a
    · simp [List.filter_cons, h, ih]
    · simp [List.filter_cons, h, ih]

theorem cacheInvalidate_idem (c : Cache) (p : String → Bool) :
    cacheInvalidate (cacheInvalidate c p) p = cacheInvalidate c p :=
  filter_self_idem _ c


theorem list_unprocessed_notes_hit {st : ServerState} {t limit offset : Nat} {r : ToolResult}
    (h : cacheGet st.cache t (unprocKey limit offset) = some r) :
    list_unprocessed_notes limit offset t none st = ⟨r, st, 0⟩ := by
  simp only [list_unprocessed_notes, h]

theorem list_unprocessed_notes_miss {st : ServerState} {t limit offset : Nat}
    (h : cacheGet st.cache t (unprocKey limit offset) = none) :
    list_unprocessed_notes limit offset t none st =
      ⟨listUnprocResult st.store limit offset,
        ⟨cacheSet st.cache t (unprocKey limit offset) (listUnprocResult st.store limit offset),
          st.store⟩, 1⟩ := by
  simp only [list_unprocessed_notes, h]

/-- Claim C2: given a fixed store, two consecutive list_unprocessed_notes
calls with the same limit and offset, the second within the TTL of the
first and with no mutating call in between, issue exactly one gateway
request in total (the first call issues it, the second call is a cache
hit issuing none), and both calls return identical results. -/
theorem c2_second_call_cached (st : ServerState) (t1 t2 limit offset : Nat)
    (hmiss : cacheGet st.cache t1 (unprocKey limit offset) = none)
    (httl : t2 < t1 + cacheTTL) :
    (list_unprocessed_notes limit offset t1 none st).gatewayCalls = 1 ∧
    (list_unprocessed_notes limit offset t2 none
      (list_unprocessed_notes limit offset t1 none st).state).gatewayCalls = 0 ∧
    (list_unprocessed_notes limit offset t2 none
      (list_unprocessed_notes limit offset t1 none st).state).result =
      (list_unprocessed_notes limit offset t1 none st).result ∧
    (list_unprocessed_notes limit offset t2 none
      (list_unprocessed_notes limit offset t1 none st).state).state =
      (list_unprocessed_notes limit offset t1 none st).state := by
  have h1 := list_unprocessed_notes_miss hmiss
  have h2 : cacheGet (list_unprocessed_notes limit offset t1 none st).state.cache t2
      (unprocKey limit offset) = some (listUnprocResult st.store limit offset) := by
    rw [h1]
    exact cacheGet_cacheSet_same _ _ _ _ _ httl
  have h3 := list_unprocessed_notes_hit h2
  refine ⟨by rw [h1], by rw [h3], by rw [h3, h1], by rw [h3]⟩

/-- Claim C2 witness: a concrete instance on the sample store with a
cold cache at times 0 and 1. -/
theorem c2_second_call_cached_witness :
    (cacheGet sampleState.cache 0 (unprocKey 50 0) = none ∧ (1 : Nat) < 0 + cacheTTL) ∧
    ((list_unprocessed_notes 50 0 0 none sampleState).gatewayCalls = 1 ∧
      (list_unprocessed_notes 50 0 1 none
        (list_unprocessed_notes 50 0 0 none sampleState).state).gatewayCalls = 0 ∧
      (list_unprocessed_notes 50 0 1 none
        (list_unprocessed_notes 50 0 0 none sampleState).state).result =
        (list_unprocessed_notes 50 0 0 none sampleState).result ∧
      (list_unprocessed_notes 50 0 1 none
        (list_unprocessed_notes 50 0 0 none sampleState).state).state =
        (list_unprocessed_notes 50 0 0 none sampleState).state) :=
  ⟨⟨by decide, by decide⟩,
    c2_second_call_cached sampleState 0 1 50 0 (by decide) (by decide)⟩

/-- Claim C3: on a gateway-served list_unprocessed_notes call the
returned has_more flag is true exactly when the returned count equals
the limit; the count never exceeds the limit and equals the number of
returned notes, so fewer rows than the limit forces has_more false. -/
theorem c3_has_more_iff_full_page (st : ServerState) (t limit offset : Nat)
    (hmiss : cacheGet st.cache t (unprocKey limit offset) = none) :
    ∃ r : ListNotesOk,
      (list_unprocessed_notes limit offset t none st).result = .ok (.unprocessed r) ∧
      (r.has_more = true ↔ r.count = limit) ∧
      r.count ≤ limit ∧
      r.count = r.notes.length := by
  refine ⟨listUnprocOk st.store limit offset, ?_, ?_, ?_, rfl⟩
  · rw [list_unprocessed_notes_miss hmiss]
    rfl
  · simp [listUnprocOk]
  · simp only [listUnprocOk, unprocessedRows, List.length_map]
    exact List.length_take_le ..

/-- Claim C3 witness: a store with exactly one matching row and limit 1,
where has_more is true although no further rows exist. -/
theorem c3_has_more_iff_full_page_witness :
    cacheGet sampleState.cache 0 (unprocKey 1 0) = none ∧
    ∃ r : ListNotesOk,
      (list_unprocessed_notes 1 0 0 none sampleState).result = .ok (.unprocessed r) ∧
      (r.has_more = true ↔ r.count = 1) ∧
      r.count ≤ 1 ∧
      r.count = r.notes.length :=
  ⟨by decide, c3_has_more_iff_full_page sampleState 0 1 0 (by decide)⟩

theorem strContains_suffix (a sub : String) : strContains (a ++ sub) sub :=
  ⟨a, "", by rw [strAppendEmpty]⟩

theorem strContains_in_suffix (a pre sub post : String) :
    strContains (a ++ (pre ++ sub ++ post)) sub :=
  ⟨a ++ pre, post, by simp [strAppendAssoc]⟩

theorem strContains_in_prefix (pre sub mid d : String) :
    strContains ((pre ++ sub ++ mid) ++ d) sub :=
  ⟨pre, mid ++ d, by simp [strAppendAssoc]⟩

theorem strContains_mid (a sub d : String) : strContains ((a ++ sub) ++ d) sub :=
  ⟨a, d, rfl⟩

/-- Claim C4: every note returned by a gateway-served
list_unprocessed_notes call is the projection of a stored note that has
no project reference, is unprocessed and has completed transcription, and
the returned list is ordered newest-first by creation timestamp. -/
theorem c4_inbox_contents (st : ServerState) (t limit offset : Nat)
    (hmiss : cacheGet st.cache t (unprocKey limit offset) = none) :
    ∃ r : ListNotesOk,
      (list_unprocessed_notes limit offset t none st).result = .ok (.unprocessed r) ∧
      (∀ it ∈ r.notes, ∃ n, n ∈ st.store.notes ∧ toListItem n = it ∧
        n.project_id = none ∧ n.is_processed = false ∧
        n.transcription_status = "completed") ∧
      r.notes.Pairwise (fun a b => b.created_at ≤ a.created_at) := by
  refine ⟨listUnprocOk st.store limit offset, ?_, ?_, ?_⟩
  · rw [list_unprocessed_notes_miss hmiss]
    rfl
  · intro it hit
    simp only [listUnprocOk, unprocessedRows] at hit
    rcases List.mem_map.mp hit with ⟨n, hn, rfl⟩
    have hn2 : n ∈ sortNotesDesc (st.store.notes.filter inboxFilter) :=
      ((List.take_sublist _ _).trans (List.drop_sublist _ _)).subset hn
    have hn3 : n ∈ st.store.notes.filter inboxFilter :=
      (List.mem_insertionSort newerNote).mp hn2
    rcases List.mem_filter.mp hn3 with ⟨hn4, hf⟩
    have hf2 := hf
    simp only [inboxFilter, Bool.and_eq_true, beq_iff_eq] at hf2
    exact ⟨n, hn4, rfl, hf2.1.1, by simpa using hf2.1.2, hf2.2⟩
  · have hs : List.Pairwise newerNote (sortNotesDesc (st.store.notes.filter inboxFilter)) :=
      List.sorted_insertionSort newerNote _
    have hsub : (((sortNotesDesc (st.store.notes.filter inboxFilter)).drop offset).take limit).Sublist
        (sortNotesDesc (st.store.notes.filter inboxFilter)) :=
      (List.take_sublist _ _).trans (List.drop_sublist _ _)
    exact List.Pairwise.map toListItem (fun a b hab => hab) (List.Pairwise.sublist hsub hs)

/-- Claim C4 witness: a concrete two-note store, where the result lists
both notes newest-first. -/
theorem c4_inbox_contents_witness :
    cacheGet sampleState2.cache 0 (unprocKey 50 0) = none ∧
    ∃ r : ListNotesOk,
      (list_unprocessed_notes 50 0 0 none sampleState2).result = .ok (.unprocessed r) ∧
      (∀ it ∈ r.notes, ∃ n, n ∈ sampleState2.store.notes ∧ toListItem n = it ∧
        n.project_id = none ∧ n.is_processed = false ∧
        n.transcription_status = "completed") ∧
      r.notes.Pairwise (fun a b => b.created_at ≤ a.created_at) :=
  ⟨by decide, c4_inbox_contents sampleState2 0 50 0 (by decide)⟩



/-- Claim C6: a read_note call whose id matches zero rows in the store
returns the business error mentioning "not found" and the requested id;
it is produced on a completed gateway round trip (not a transport
failure) and leaves the server state unchanged. -/
theorem c6_read_note_not_found (st : ServerState) (t : Nat) (nid : String)
    (hmiss : cacheGet st.cache t (noteKey nid) = none)
    (habs : ∀ n ∈ st.store.notes, n.id ≠ nid) :
    (read_note nid t none st).result = .err ("Note " ++ nid ++ " not found") ∧
    strContains ("Note " ++ nid ++ " not found") "not found" ∧
    strContains ("Note " ++ nid ++ " not found") nid ∧
    (read_note nid t none st).state = st ∧
    (read_note nid t none st).gatewayCalls = 1 := by
  have hf : st.store.notes.find? (fun n => n.id == nid) = none :=
    List.find?_eq_none.mpr (fun n hn => by simpa using habs n hn)
  refine ⟨?_, ?_, ?_, ?_, ?_⟩
  · simp [read_note, hmiss, hf]
  · exact strContains_in_suffix ("Note " ++ nid) " " "not found" ""
  · exact strContains_mid "Note " nid " not found"
  · simp [read_note, hmiss, hf]
  · simp [read_note, hmiss, hf]

/-- Claim C6 witness: reading a missing id from the sample store. -/
theorem c6_read_note_not_found_witness :
    (cacheGet sampleState.cache 0 (noteKey "missing") = none ∧
      ∀ n ∈ sampleState.store.notes, n.id ≠ "missing") ∧
    ((read_note "missing" 0 none sampleState).result =
        .err ("Note " ++ "missing" ++ " not found") ∧
      strContains ("Note " ++ "missing" ++ " not found") "not found" ∧
      strContains ("Note " ++ "missing" ++ " not found") "missing" ∧
      (read_note "missing" 0 none sampleState).state = sampleState ∧
      (read_note "missing" 0 none sampleState).gatewayCalls = 1) :=
  ⟨⟨by decide, by decide⟩,
    c6_read_note_not_found sampleState 0 "missing" (by decide) (by decide)⟩

/-- Claim C7: a tools/call with a name outside the catalog performs no
gateway operation and leaves the state untouched; the result is the
error text containing "Unknown tool" and the literal requested name. -/
theorem c7_unknown_tool (nm : String) (a : Args) (t : Nat) (gw : Option String)
    (st : ServerState) (h : nm ∉ serverToolNames) :
    (handle_call_tool nm a t gw st).result =
      .err ("Tool execution failed: Unknown tool: " ++ nm) ∧
    strContains ("Tool execution failed: Unknown tool: " ++ nm) "Unknown tool" ∧
    strContains ("Tool execution failed: Unknown tool: " ++ nm) nm ∧
    (handle_call_tool nm a t gw st).state = st ∧
    (handle_call_tool nm a t gw st).gatewayCalls = 0 := by
  simp only [serverToolNames, List.mem_cons, List.not_mem_nil, or_false, not_or] at h
  obtain ⟨h1, h2, h3, h4, h5, h6, h7, h8, h9, h10, h11, h12⟩ := h
  have hc : handle_call_tool nm a t gw st =
      ⟨.err ("Tool execution failed: Unknown tool: " ++ nm), st, 0⟩ := by
    simp [handle_call_tool, h1, h2, h3, h4, h5, h6, h7, h8, h9, h10, h11, h12]
  refine ⟨?_, ?_, ?_, ?_, ?_⟩
  · rw [hc]
  · exact strContains_in_prefix "Tool execution failed: " "Unknown tool" ": " nm
  · exact strContains_suffix "Tool execution failed: Unknown tool: " nm
  · rw [hc]
  · rw [hc]

/-- Claim C7 witness: calling an unknown tool name on the sample state. -/
theorem c7_unknown_tool_witness :
    "frobnicate" ∉ serverToolNames ∧
    ((handle_call_tool "frobnicate" Args.empty 0 none sampleState).result =
        .err ("Tool execution failed: Unknown tool: " ++ "frobnicate") ∧
      strContains ("Tool execution failed: Unknown tool: " ++ "frobnicate") "Unknown tool" ∧
      strContains ("Tool execution failed: Unknown tool: " ++ "frobnicate") "frobnicate" ∧
      (handle_call_tool "frobnicate" Args.empty 0 none sampleState).state = sampleState ∧
      (handle_call_tool "frobnicate" Args.empty 0 none sampleState).gatewayCalls = 0) :=
  ⟨by decide, c7_unknown_tool "frobnicate" Args.empty 0 none sampleState (by decide)⟩

end VoiceNotes

namespace Mcp

/-- Claim C5: a tools/list or tools/call message received while the
session is uninitialized yields an error response correlated to the
request id whose message mentions "not initialized", invokes no tool,
and leaves the session state unchanged (the session is not closed); a
later initialize message still succeeds and marks the session
initialized. -/
theorem c5_uninitialized_request (exec : String → String) (sess : Session)
    (m : McpMessage) (hun : sess.ready = false)
    (hm : m.method = "tools/list" ∨ m.method = "tools/call") :
    (handleMessage exec sess m).2.1 =
      some (.rpcError m.id (-32603) "Internal error: Server not initialized") ∧
    VoiceNotes.strContains "Internal error: Server not initialized" "not initialized" ∧
    (handleMessage exec sess m).2.2 = 0 ∧
    (handleMessage exec sess m).1 = sess ∧
    (∀ m2 : McpMessage, m2.method = "initialize" →
      (handleMessage exec (handleMessage exec sess m).1 m2).1.ready = true ∧
      (handleMessage exec (handleMessage exec sess m).1 m2).2.1 =
        some (.result m2.id .initOk)) := by
  have hcontain : VoiceNotes.strContains "Internal error: Server not initialized"
      "not initialized" :=
    ⟨"Internal error: Server ", "", by decide⟩
  have hmain : handleMessage exec sess m =
      (sess, some (.rpcError m.id (-32603) "Internal error: Server not initialized"), 0) := by
    rcases hm with hm | hm <;> simp [handleMessage, hm, hun]
  refine ⟨by rw [hmain], hcontain, by rw [hmain], by rw [hmain], ?_⟩
  intro m2 hm2
  rw [hmain]
  constructor <;> simp [handleMessage, hm2]

/-- Claim C5 witness: a concrete tools/list request against a fresh
uninitialized session, followed by initialize. -/
theorem c5_uninitialized_request_witness :
    ((Session.mk false).ready = false ∧
      ((McpMessage.mk "tools/list" (some 3) none).method = "tools/list" ∨
        (McpMessage.mk "tools/list" (some 3) none).method = "tools/call")) ∧
    ((handleMessage (fun _ => "") ⟨false⟩ ⟨"tools/list", some 3, none⟩).2.1 =
        some (.rpcError (some 3) (-32603) "Internal error: Server not initialized") ∧
      VoiceNotes.strContains "Internal error: Server not initialized" "not initialized" ∧
      (handleMessage (fun _ => "") ⟨false⟩ ⟨"tools/list", some 3, none⟩).2.2 = 0 ∧
      (handleMessage (fun _ => "") ⟨false⟩ ⟨"tools/list", some 3, none⟩).1 = ⟨false⟩ ∧
      (∀ m2 : McpMessage, m2.method = "initialize" →
        (handleMessage (fun _ => "")
          (handleMessage (fun _ => "") ⟨false⟩ ⟨"tools/list", some 3, none⟩).1 m2).1.ready = true ∧
        (handleMessage (fun _ => "")
          (handleMessage (fun _ => "") ⟨false⟩ ⟨"tools/list", some 3, none⟩).1 m2).2.1 =
          some (.result m2.id .initOk))) :=
  ⟨⟨rfl, Or.inl rfl⟩,
    c5_uninitialized_request (fun _ => "") ⟨false⟩ ⟨"tools/list", some 3, none⟩ rfl (Or.inl rfl)⟩

end Mcp

namespace VoiceNotes

theorem assignUpdate_id (nid pid : String) (t : Nat) (n : Note) :
    (assignUpdate nid pid t n).id = n.id := by
  by_cases h : n.id = nid <;> simp [assignUpdate, h]

theorem find?_map_assignUpdate {notes : List Note} {nid pid : String} {t : Nat}
    (hex : ∃ n ∈ notes, n.id = nid) :
    ∃ n2, (notes.map (assignUpdate nid pid t)).find? (fun n => n.id == nid) = some n2 ∧
      n2.project_id = some pid ∧ n2.is_processed = true := by
  induction notes with
  | nil =>
    rcases hex with ⟨n, hn, _⟩
    exact absurd hn (List.not_mem_nil n)
  | cons hd tl ih =>
    by_cases h : hd.id = nid
    · refine ⟨assignUpdate nid pid t hd, ?_, ?_, ?_⟩
      · simp [List.find?_cons, assignUpdate_id, h]
      · simp [assignUpdate, h]
      · simp [assignUpdate, h]
    · have hex2 : ∃ n ∈ tl, n.id = nid := by
        rcases hex with ⟨n, hn, hid⟩
        rcases List.mem_cons.mp hn with rfl | hn2
        · exact absurd hid h
        · exact ⟨n, hn2, hid⟩
      rcases ih hex2 with ⟨n2, hf, hp, hpr⟩
      refine ⟨n2, ?_, hp, hpr⟩
      simp [List.find?_cons, assignUpdate_id, h, hf]

theorem filter_id_nonempty {notes : List Note} {nid : String}
    (hex : ∃ n ∈ notes, n.id = nid) :
    (notes.filter (fun n => n.id == nid)).isEmpty = false := by
  rcases hex with ⟨n, hn, hid⟩
  have hmem : n ∈ notes.filter (fun n => n.id == nid) :=
    List.mem_filter.mpr ⟨hn, by simp [hid]⟩
  have hne := List.ne_nil_of_mem hmem
  cases hcase : (notes.filter (fun n => n.id == nid)).isEmpty with
  | false => rfl
  | true => exact absurd (List.isEmpty_iff.mp hcase) hne

/-- Claim C1 counterexample: starting from a cache holding the
single-project entry for proj-1, a successful
assign_note_to_project("note-1", "proj-1") leaves that entry in the
cache — the claimed removal of the single-project entry does not
happen. -/
theorem c1_single_project_entry_survives :
    (assign_note_to_project "note-1" "proj-1" 1 none c1State).result =
      .success (.assigned "note-1" "proj-1") ∧
    cacheGet (assign_note_to_project "note-1" "proj-1" 1 none c1State).state.cache 1
      (projectKey "proj-1") =
      some (.ok (.projectDetail ⟨sampleProject, 0⟩)) := by decide

/-- Claim C1 amended: a successful assign_note_to_project removes
exactly the note-mutation set (inbox listings, the single-note entry,
inbox statistics) and the project-listing sets (project listings and
per-project note listings) from the cache — every other entry,
including the single-project entry for project_id, survives — and a
subsequent read_note(note_id) is served from the store and reflects the
new project assignment. -/
theorem c1_assign_invalidation (st : ServerState) (nid pid : String) (t t2 : Nat)
    (hex : ∃ n ∈ st.store.notes, n.id = nid) :
    (assign_note_to_project nid pid t none st).result = .success (.assigned nid pid) ∧
    (∀ e ∈ (assign_note_to_project nid pid t none st).state.cache,
      e ∈ st.cache ∧ noteInvPred nid e.key = false ∧ projectsInvPred e.key = false) ∧
    (∀ e ∈ st.cache, noteInvPred nid e.key = false → projectsInvPred e.key = false →
      e ∈ (assign_note_to_project nid pid t none st).state.cache) ∧
    (∃ n2, (read_note nid t2 none (assign_note_to_project nid pid t none st).state).result =
      readNoteResult (assign_note_to_project nid pid t none st).state.store n2 ∧
      n2.project_id = some pid ∧ n2.is_processed = true) := by
  have hne := filter_id_nonempty hex
  have hmain : assign_note_to_project nid pid t none st =
      ⟨.success (.assigned nid pid),
        ⟨invalidateProjectsCache (invalidateNoteCache nid st.cache),
          { st.store with notes := st.store.notes.map (assignUpdate nid pid t) }⟩, 1⟩ := by
    simp [assign_note_to_project, hne]
  refine ⟨by rw [hmain], ?_, ?_, ?_⟩
  · intro e he
    rw [hmain] at he
    rcases mem_cacheInvalidate.mp he with ⟨he2, hproj⟩
    rcases mem_cacheInvalidate.mp he2 with ⟨he3, hnote⟩
    exact ⟨he3, hnote, hproj⟩
  · intro e he hn hp
    rw [hmain]
    exact mem_cacheInvalidate.mpr ⟨mem_cacheInvalidate.mpr ⟨he, hn⟩, hp⟩
  · have hkey : cacheGet (invalidateProjectsCache (invalidateNoteCache nid st.cache)) t2
        (noteKey nid) = none := by
      have hf : (invalidateProjectsCache (invalidateNoteCache nid st.cache)).find?
          (fun e => e.key == noteKey nid) = none := by
        refine List.find?_eq_none.mpr (fun e he => ?_)
        rcases mem_cacheInvalidate.mp he with ⟨he2, _⟩
        rcases mem_cacheInvalidate.mp he2 with ⟨_, hnote⟩
        simp only [noteInvPred, Bool.or_eq_false_iff] at hnote
        simp [hnote.1.2]
      simp [cacheGet, hf]
    rcases @find?_map_assignUpdate st.store.notes nid pid t hex with ⟨n2, hf2, hp2, hpr2⟩
    refine ⟨n2, ?_, hp2, hpr2⟩
    rw [hmain]
    simp [read_note, hkey, hf2]

/-- Claim C1 amended witness: the concrete cache of the counterexample,
instantiated in the amended theorem. -/
theorem c1_assign_invalidation_witness :
    (∃ n ∈ c1State.store.notes, n.id = "note-1") ∧
    ((assign_note_to_project "note-1" "proj-1" 1 none c1State).result =
        .success (.assigned "note-1" "proj-1") ∧
      (∀ e ∈ (assign_note_to_project "note-1" "proj-1" 1 none c1State).state.cache,
        e ∈ c1State.cache ∧ noteInvPred "note-1" e.key = false ∧
          projectsInvPred e.key = false) ∧
      (∀ e ∈ c1State.cache, noteInvPred "note-1" e.key = false →
        projectsInvPred e.key = false →
        e ∈ (assign_note_to_project "note-1" "proj-1" 1 none c1State).state.cache) ∧
      (∃ n2, (read_note "note-1" 2 none
          (assign_note_to_project "note-1" "proj-1" 1 none c1State).state).result =
        readNoteResult (assign_note_to_project "note-1" "proj-1" 1 none c1State).state.store n2 ∧
        n2.project_id = some "proj-1" ∧ n2.is_processed = true)) :=
  ⟨by decide, c1_assign_invalidation c1State "note-1" "proj-1" 1 2 (by decide)⟩

end VoiceNotes

namespace VoiceNotes

theorem markUpdate_id (nid : String) (t : Nat) (n : Note) :
    (markUpdate nid t n).id = n.id := by
  by_cases h : n.id = nid <;> simp [markUpdate, h]

theorem markUpdate_twice (nid : String) (t1 t2 : Nat) (n : Note) :
    markUpdate nid t2 (markUpdate nid t1 n) =
      (fun m => if m.id == nid then { m with modified_at := t2 } else m)
        (markUpdate nid t1 n) := by
  by_cases h : n.id = nid <;> simp [markUpdate, h]

/-- Claim C8 counterexample: marking the same existing note processed
at times 1 and then 2 succeeds twice, but the second call changes the
store again — it refreshes the note's modified_at timestamp, a visible
state change. -/
theorem c8_second_mark_changes_store :
    (mark_as_processed "note-1" 1 none sampleState).result = .success (.marked "note-1") ∧
    (mark_as_processed "note-1" 2 none
      (mark_as_processed "note-1" 1 none sampleState).state).result =
      .success (.marked "note-1") ∧
    (mark_as_processed "note-1" 2 none
      (mark_as_processed "note-1" 1 none sampleState).state).state.store ≠
      (mark_as_processed "note-1" 1 none sampleState).state.store := by decide

/-- Claim C8 amended: calling mark_as_processed twice on the same
existing note id yields success both times, and the second call changes
nothing visible except refreshing the matching note's modified_at
timestamp: all other note fields, the projects table and the cache are
exactly as after the first call. -/
theorem c8_mark_twice (st : ServerState) (nid : String) (t1 t2 : Nat)
    (hex : ∃ n ∈ st.store.notes, n.id = nid) :
    (mark_as_processed nid t1 none st).result = .success (.marked nid) ∧
    (mark_as_processed nid t2 none (mark_as_processed nid t1 none st).state).result =
      .success (.marked nid) ∧
    (mark_as_processed nid t2 none
        (mark_as_processed nid t1 none st).state).state.store.notes =
      (mark_as_processed nid t1 none st).state.store.notes.map
        (fun m => if m.id == nid then { m with modified_at := t2 } else m) ∧
    (mark_as_processed nid t2 none
        (mark_as_processed nid t1 none st).state).state.store.projects =
      (mark_as_processed nid t1 none st).state.store.projects ∧
    (mark_as_processed nid t2 none
        (mark_as_processed nid t1 none st).state).state.cache =
      (mark_as_processed nid t1 none st).state.cache := by
  have hne1 := filter_id_nonempty hex
  have hmain1 : mark_as_processed nid t1 none st =
      ⟨.success (.marked nid),
        ⟨invalidateNoteCache nid st.cache,
          { st.store with notes := st.store.notes.map (markUpdate nid t1) }⟩, 1⟩ := by
    simp [mark_as_processed, hne1]
  have hex2 : ∃ n ∈ st.store.notes.map (markUpdate nid t1), n.id = nid := by
    rcases hex with ⟨n, hn, hid⟩
    exact ⟨markUpdate nid t1 n, List.mem_map_of_mem _ hn, by rw [markUpdate_id, hid]⟩
  have hne2 := filter_id_nonempty hex2
  have hmain2 : mark_as_processed nid t2 none
      (⟨invalidateNoteCache nid st.cache,
        { st.store with notes := st.store.notes.map (markUpdate nid t1) }⟩ : ServerState) =
      ⟨.success (.marked nid),
        ⟨invalidateNoteCache nid (invalidateNoteCache nid st.cache),
          { st.store with
            notes := (st.store.notes.map (markUpdate nid t1)).map (markUpdate nid t2) }⟩, 1⟩ := by
    simp [mark_as_processed, hne2]
  refine ⟨by rw [hmain1], ?_, ?_, ?_, ?_⟩
  · rw [hmain1, hmain2]
  · rw [hmain1, hmain2]
    refine List.map_congr_left ?_
    intro m hm
    rcases List.mem_map.mp hm with ⟨n, _, rfl⟩
    exact markUpdate_twice nid t1 t2 n
  · rw [hmain1, hmain2]
  · rw [hmain1, hmain2]
    exact cacheInvalidate_idem st.cache (noteInvPred nid)

/-- Claim C8 amended witness: the concrete two-call run of the
counterexample, instantiated in the amended theorem. -/
theorem c8_mark_twice_witness :
    (∃ n ∈ sampleState.store.notes, n.id = "note-1") ∧
    ((mark_as_processed "note-1" 1 none sampleState).result = .success (.marked "note-1") ∧
      (mark_as_processed "note-1" 2 none
        (mark_as_processed "note-1" 1 none sampleState).state).result =
        .success (.marked "note-1") ∧
      (mark_as_processed "note-1" 2 none
          (mark_as_processed "note-1" 1 none sampleState).state).state.store.notes =
        (mark_as_processed "note-1" 1 none sampleState).state.store.notes.map
          (fun m => if m.id == "note-1" then { m with modified_at := 2 } else m) ∧
      (mark_as_processed "note-1" 2 none
          (mark_as_processed "note-1" 1 none sampleState).state).state.store.projects =
        (mark_as_processed "note-1" 1 none sampleState).state.store.projects ∧
      (mark_as_processed "note-1" 2 none
          (mark_as_processed "note-1" 1 none sampleState).state).state.cache =
        (mark_as_processed "note-1" 1 none sampleState).state.cache) :=
  ⟨by decide, c8_mark_twice sampleState "note-1" 1 2 (by decide)⟩

end VoiceNotes

namespace VoiceNotes

/-- Claim C9 counterexample: create_project with an empty name does not
produce a validation error — the call succeeds and a project row with
empty name is inserted into the store. -/
theorem c9_empty_name_inserts_row :
    (create_project "" none none 7 none emptyState).result =
      .success (.created ⟨"proj-0", "", none, none, false, 7, 7⟩) ∧
    (create_project "" none none 7 none emptyState).state.store.projects =
      [⟨"proj-0", "", none, none, false, 7, 7⟩] := by decide

/-- Claim C9 amended: create_project performs no validation of the name
argument: called with the empty string it issues the insert, returns
success with a project whose name is empty and archived flag false, and
appends exactly that row to the store. -/
theorem c9_empty_name_no_validation (st : ServerState) (purpose goal : Option String)
    (t : Nat) :
    (create_project "" purpose goal t none st).result =
      .success (.created ⟨"proj-" ++ toString st.store.nextId, "", purpose, goal,
        false, t, t⟩) ∧
    (create_project "" purpose goal t none st).state.store.projects =
      st.store.projects ++
        [⟨"proj-" ++ toString st.store.nextId, "", purpose, goal, false, t, t⟩] ∧
    (create_project "" purpose goal t none st).gatewayCalls = 1 :=
  ⟨rfl, rfl, rfl⟩

end VoiceNotes

namespace VoiceNotes

theorem step_cache_aux_id {st : ServerState} {r : ToolResult} {k : Nat} :
    ((Step.mk r st k).result.isErr = true → (Step.mk r st k).state.cache = st.cache) ∧
    (∀ e ∈ (Step.mk r st k).state.cache, e ∈ st.cache ∨ e.val.isErr = false) :=
  ⟨fun _ => rfl, fun _ he => Or.inl he⟩

theorem step_cache_aux_set {st : ServerState} {r : ToolResult} {key : String} {t k : Nat}
    {s2 : Store} (hv : r.isErr = false) :
    ((Step.mk r ⟨cacheSet st.cache t key r, s2⟩ k).result.isErr = true →
      (Step.mk r ⟨cacheSet st.cache t key r, s2⟩ k).state.cache = st.cache) ∧
    (∀ e ∈ (Step.mk r ⟨cacheSet st.cache t key r, s2⟩ k).state.cache,
      e ∈ st.cache ∨ e.val.isErr = false) := by
  constructor
  · intro h
    have h2 : r.isErr = true := h
    rw [hv] at h2
    exact Bool.noConfusion h2
  · intro e he
    rcases mem_cacheSet he with rfl | he2
    · exact Or.inr hv
    · exact Or.inl he2

/-- Claim C10: for every read handler, whenever the returned result is
the error dictionary (gateway failure or not-found), the cache is left
exactly as it was — error results are never inserted; and every cache
entry after any read call is either a pre-existing entry or a non-error
result, so an error outcome can never be served from the cache later. -/
theorem c10_error_results_never_cached (st : ServerState) (t : Nat) (g : Option String)
    (limit offset : Nat) (nid q pid : String) (ip ia : Bool) :
    (((list_unprocessed_notes limit offset t g st).result.isErr = true →
        (list_unprocessed_notes limit offset t g st).state.cache = st.cache) ∧
      (∀ e ∈ (list_unprocessed_notes limit offset t g st).state.cache,
        e ∈ st.cache ∨ e.val.isErr = false)) ∧
    (((read_note nid t g st).result.isErr = true →
        (read_note nid t g st).state.cache = st.cache) ∧
      (∀ e ∈ (read_note nid t g st).state.cache,
        e ∈ st.cache ∨ e.val.isErr = false)) ∧
    (((search_notes q ip limit t g st).result.isErr = true →
        (search_notes q ip limit t g st).state.cache = st.cache) ∧
      (∀ e ∈ (search_notes q ip limit t g st).state.cache,
        e ∈ st.cache ∨ e.val.isErr = false)) ∧
    (((get_inbox_stats t g st).result.isErr = true →
        (get_inbox_stats t g st).state.cache = st.cache) ∧
      (∀ e ∈ (get_inbox_stats t g st).state.cache,
        e ∈ st.cache ∨ e.val.isErr = false)) ∧
    (((list_projects ia t g st).result.isErr = true →
        (list_projects ia t g st).state.cache = st.cache) ∧
      (∀ e ∈ (list_projects ia t g st).state.cache,
        e ∈ st.cache ∨ e.val.isErr = false)) ∧
    (((get_project pid t g st).result.isErr = true →
        (get_project pid t g st).state.cache = st.cache) ∧
      (∀ e ∈ (get_project pid t g st).state.cache,
        e ∈ st.cache ∨ e.val.isErr = false)) ∧
    (((get_notes_by_project pid limit offset t g st).result.isErr = true →
        (get_notes_by_project pid limit offset t g st).state.cache = st.cache) ∧
      (∀ e ∈ (get_notes_by_project pid limit offset t g st).state.cache,
        e ∈ st.cache ∨ e.val.isErr = false)) := by
  refine ⟨?_, ?_, ?_, ?_, ?_, ?_, ?_⟩
  · simp only [list_unprocessed_notes]
    cases hcg : cacheGet st.cache t (unprocKey limit offset) with
    | some r => exact step_cache_aux_id
    | none =>
      cases g with
      | some e0 => exact step_cache_aux_id
      | none => exact step_cache_aux_set rfl
  · simp only [read_note]
    cases hcg : cacheGet st.cache t (noteKey nid) with
    | some r => exact step_cache_aux_id
    | none =>
      cases g with
      | some e0 => exact step_cache_aux_id
      | none =>
        cases hf : st.store.notes.find? (fun n => n.id == nid) with
        | some n => exact step_cache_aux_set rfl
        | none => exact step_cache_aux_id
  · simp only [search_notes]
    cases hcg : cacheGet st.cache t (searchKey q ip limit) with
    | some r => exact step_cache_aux_id
    | none =>
      cases g with
      | some e0 => exact step_cache_aux_id
      | none => exact step_cache_aux_set rfl
  · simp only [get_inbox_stats]
    cases hcg : cacheGet st.cache t statsKey with
    | some r => exact step_cache_aux_id
    | none =>
      cases g with
      | some e0 => exact step_cache_aux_id
      | none => exact step_cache_aux_set rfl
  · simp only [list_projects]
    cases hcg : cacheGet st.cache t (projectsKey ia) with
    | some r => exact step_cache_aux_id
    | none =>
      cases g with
      | some e0 => exact step_cache_aux_id
      | none => exact step_cache_aux_set rfl
  · simp only [get_project]
    cases hcg : cacheGet st.cache t (projectKey pid) with
    | some r => exact step_cache_aux_id
    | none =>
      cases g with
      | some e0 => exact step_cache_aux_id
      | none =>
        cases hf : st.store.projects.find? (fun p => p.id == pid) with
        | some p => exact step_cache_aux_set rfl
        | none => exact step_cache_aux_id
  · simp only [get_notes_by_project]
    cases hcg : cacheGet st.cache t (projectNotesKey pid limit offset) with
    | some r => exact step_cache_aux_id
    | none =>
      cases g with
      | some e0 => exact step_cache_aux_id
      | none => exact step_cache_aux_set rfl

/-- Claim C10 witness: a gateway failure during list_unprocessed_notes
on a fresh state produces an error result and leaves the (empty) cache
unchanged. -/
theorem c10_error_results_never_cached_witness :
    (list_unprocessed_notes 50 0 0 (some "boom") emptyState).result.isErr = true ∧
    (list_unprocessed_notes 50 0 0 (some "boom") emptyState).state.cache =
      emptyState.cache :=
  ⟨by decide,
    (c10_error_results_never_cached emptyState 0 (some "boom") 50 0 "n" "q" "p"
      false false).1.1 (by decide)⟩

end VoiceNotes
